import Mathlib

/-!
Verification of the Gene Natural-Language-to-SQL query engine
(`Gene/query_engine.py`, `Gene/database_local.py`, `Gene/database.py`).

Strings are modelled as lists of characters (`Str`).  Python's `str.strip`,
`str.upper`, `str.startswith`, `str.endswith`, `str.ljust`, `str.join` are
translated below.  Effectful boundaries (the MySQL connection and the
OpenAI HTTP endpoint) are modelled by `Except`-valued environment records;
a `.error e` outcome models a raised Python exception whose `str` is `e`.
-/

abbrev Str := List Char

/-- Coerce a Lean string literal to the character-list representation. -/
def S (s : String) : Str := s.data

/-- Python `str.lstrip()` (default whitespace). -/
def lstrip (s : Str) : Str := s.dropWhile Char.isWhitespace

/-- Python `str.rstrip()` (default whitespace). -/
def rstrip (s : Str) : Str := (lstrip s.reverse).reverse

/-- Python `str.strip()` (default whitespace). -/
def pyStrip (s : Str) : Str := rstrip (lstrip s)

/-- Python `str.upper()` (ASCII contents only in this code base). -/
def pyUpper (s : Str) : Str := s.map Char.toUpper

/-- Python `s.startswith(p)`. -/
def pyStartsWith (s p : Str) : Bool := p.isPrefixOf s

/-- Python `s.endswith(p)`. -/
def pyEndsWith (s p : Str) : Bool := p.reverse.isPrefixOf s.reverse

/-- Python `sep.join(parts)`. -/
def joinSep (sep : Str) : List Str → Str
  | [] => []
  | [x] => x
  | x :: y :: t => x ++ sep ++ joinSep sep (y :: t)

/-- Python `s.ljust(w)` (space padding; no-op when `s` is already wide). -/
def ljust (s : Str) (w : Nat) : Str := s ++ List.replicate (w - s.length) ' '

/-- Python `max(...)` over a list of naturals; the source only applies it to
non-empty lists, on which `foldr Nat.max 0` agrees with Python `max`. -/
def listMax (l : List Nat) : Nat := l.foldr Nat.max 0

/-- Python `str(n)` for a non-negative integer. -/
def natStr (n : Nat) : Str := (Nat.repr n).data

/-- Python `str(i)` for an integer (cursor row counts may be negative). -/
def intStr (i : Int) : Str := (toString i).data

/-- Predicate: `needle` occurs as a contiguous substring of `hay`. -/
def containsSub (needle hay : Str) : Prop := ∃ p s, hay = p ++ needle ++ s

/-- Scalar values stored in a result row (Python scalars as the driver
returns them). -/
inductive PyVal
  | vStr : Str → PyVal
  | vInt : Int → PyVal
  | vNull : PyVal
deriving DecidableEq

/-- Python `str(v)` on a row value (`str(None) = "None"`). -/
def pyStr : PyVal → Str
  | .vStr s => s
  | .vInt n => intStr n
  | .vNull => S "None"

/-- A result row: a Python dict modelled as an association list
(dict keys are unique, lookup takes the first binding). -/
abbrev Row := List (Str × PyVal)

/-- Python `row.get(col, '')`. -/
def rowGet (row : Row) (k : Str) : PyVal := (row.lookup k).getD (.vStr [])

/-- One entry of the column list produced by
`LocalDatabaseManager.get_table_info` (the dict built at
`database_local.py:104-111`). -/
structure ColInfo where
  name : Str
  type : Str
  nullAttr : Str
  key : Str
  defaultVal : Option Str
  extra : Str
deriving DecidableEq

/-- Shape of `get_table_info`'s return value: table name to column list, in
table-enumeration order. -/
abbrev TableInfo := List (Str × List ColInfo)

/-- The duck-typed payload stored under the `"data"` key of an engine
response: either a list of result-row dicts (`execute_sql_query`) or a
list of table-name strings (`list_tables`). -/
inductive PyData
  | rows : List Row → PyData
  | names : List Str → PyData
deriving DecidableEq

/-- Cursor state visible to `LocalDatabaseManager.execute_query`
(`database_local.py:42-71`): what `fetchall()` would return for this
statement, and the driver's `rowcount`. -/
structure Cursor where
  fetched : List Row
  rowcount : Int
deriving DecidableEq

/-- Outcome of one `execute_query` call: the returned list of dicts and
whether `connection.commit()` was issued. -/
structure ExecOutcome where
  result : List Row
  committed : Bool
deriving DecidableEq

/-- Read-statement test of `database_local.py:60`:
`query.strip().upper().startswith(('SELECT', 'SHOW', 'DESCRIBE', 'EXPLAIN'))`. -/
def isRead4 (q : Str) : Bool :=
  pyStartsWith (pyUpper (pyStrip q)) (S "SELECT") ||
  pyStartsWith (pyUpper (pyStrip q)) (S "SHOW") ||
  pyStartsWith (pyUpper (pyStrip q)) (S "DESCRIBE") ||
  pyStartsWith (pyUpper (pyStrip q)) (S "EXPLAIN")

/-- Model of `LocalDatabaseManager.execute_query` (`database_local.py:42-71`),
after `cursor.execute` succeeded: read statements fetch rows
(`results if results else []` equals `results`), all others commit and
return `[{"affected_rows": cursor.rowcount}]`. -/
def LocalDatabaseManager.execute_query (cur : Cursor) (query : Str) : ExecOutcome :=
  if isRead4 query then ⟨cur.fetched, false⟩
  else ⟨[[(S "affected_rows", PyVal.vInt cur.rowcount)]], true⟩

/-- Cursor state visible to `DatabaseManager.execute_query`
(`database.py:37-71`; tuple cursor, so rows are value lists and column
names come from `cursor.description`). -/
structure CursorG where
  fetched : List (List PyVal)
  description : List Str
  rowcount : Int
deriving DecidableEq

/-- Return shape of `DatabaseManager.execute_query`: either
`{"columns":…, "data":…}` or `{"affected_rows":…}`. -/
inductive DbResultG
  | rowsRes : List Str → List (List PyVal) → DbResultG
  | affectedRes : Int → DbResultG
deriving DecidableEq

/-- Read-statement test of `database.py:59`: three `startswith` checks on
`query.strip().upper()` — `SELECT`, `SHOW`, `DESCRIBE` (no `EXPLAIN`). -/
def isRead3 (q : Str) : Bool :=
  pyStartsWith (pyUpper (pyStrip q)) (S "SELECT") ||
  pyStartsWith (pyUpper (pyStrip q)) (S "SHOW") ||
  pyStartsWith (pyUpper (pyStrip q)) (S "DESCRIBE")

/-- Model of `DatabaseManager.execute_query` (`database.py:37-71`), after
`cursor.execute` succeeded; the Bool records whether `commit()` ran. -/
def DatabaseManager.execute_query (cur : CursorG) (query : Str) : DbResultG × Bool :=
  if isRead3 query then (.rowsRes cur.description cur.fetched, false)
  else (.affectedRes cur.rowcount, true)

/-- Markdown-fence cleanup of `query_engine.py:132-142`: strip, drop a
leading ```sql, drop a leading bare ```, drop a trailing ```, strip again. -/
def cleanSql (raw : Str) : Str :=
  let s1 := pyStrip raw
  let s2 := if pyStartsWith s1 (S "```sql") then s1.drop 6 else s1
  let s3 := if pyStartsWith s2 (S "```") then s2.drop 3 else s2
  let s4 := if pyEndsWith s3 (S "```") then s3.take (s3.length - 3) else s3
  pyStrip s4

/-- One `"<name> (<type>)"` entry of `query_engine.py:61`. -/
def colEntry (c : ColInfo) : Str := c.name ++ S " (" ++ c.type ++ S ")"

/-- One `"Table <name>: <col1> (<type1>), ..."` line of `query_engine.py:62`. -/
def tableLine (t : Str × List ColInfo) : Str :=
  S "Table " ++ t.1 ++ S ": " ++ joinSep (S ", ") (t.2.map colEntry)

/-- Model of `OpenAISQLEngine._build_schema_context` (`query_engine.py:54-66`),
as a function of the introspection outcome (`get_table_info` result or
the exception it raised). -/
def build_schema_context (introspection : Except Str TableInfo) : Str :=
  match introspection with
  | .ok tables =>
      S "Available tables and columns:\n" ++ joinSep (S "\n") (tables.map tableLine)
  | .error e => S "Error loading schema: " ++ e

/-- Engine state set up by `OpenAISQLEngine.__init__`
(`query_engine.py:20-52`); the api key is the already-resolved value of
the parameter/config/environment chain. -/
structure Engine where
  use_ai : Bool
  api_key : Option Str
  schema_context : Str
deriving DecidableEq

/-- Model of `OpenAISQLEngine.__init__` (`query_engine.py:29-52`): disable AI when
no key is available, then build the schema context. -/
def mkEngine (api_key : Option Str) (use_ai : Bool)
    (introspection : Except Str TableInfo) : Engine :=
  { use_ai := use_ai && api_key.isSome
    api_key := api_key
    schema_context := build_schema_context introspection }

/-- Outcome of `requests.post` at `query_engine.py:119-129`: HTTP status,
body text, and the `choices[0].message.content` extraction (whose
`.error` constructor models the `KeyError`). -/
structure HttpOutcome where
  status : Nat
  text : Str
  content : Except Str Str

/-- Model of `OpenAISQLEngine._generate_sql_with_openai` (`query_engine.py:68-149`)
as a function of the network outcome (`.error` models a raised
`requests.exceptions.RequestException`).  Returned `.error` values are the
exception messages the caller observes, including the rewrapping done by
the `except` clauses at lines 144-149. -/
def generate_sql (eng : Engine) (net : Except Str HttpOutcome) : Except Str Str :=
  match eng.api_key with
  | none => .error (S "OpenAI API key not available")
  | some _ =>
      match net with
      | .error e => .error (S "Network error calling OpenAI API: " ++ e)
      | .ok resp =>
          if resp.status ≠ 200 then
            .error (S "Error generating SQL with OpenAI: " ++
              (S "OpenAI API error: " ++ natStr resp.status ++ S " - " ++ resp.text))
          else
            match resp.content with
            | .error k => .error (S "Unexpected OpenAI API response format: " ++ k)
            | .ok c => .ok (cleanSql c)

/-- Database environment of one engine operation: `__enter__`
(connection setup), `execute_query`, and `get_table_info`, each of which
may raise (`.error`). -/
structure DbEnv where
  connect : Except Str Unit
  runQuery : Str → Except Str (List Row)
  getTableInfo : Except Str TableInfo

/-- The response dict returned by every public engine operation; a `none`
field models an absent key. -/
structure EngineResponse where
  success : Bool
  data : Option PyData := none
  error : Option Str := none
  sql_query : Option Str := none
  natural_query : Option Str := none
  row_count : Option Nat := none
  table_info : Option TableInfo := none
deriving DecidableEq

/-- Model of `OpenAISQLEngine.execute_sql_query` (`query_engine.py:187-217`).  The
second component lists the statements handed to `cursor.execute` (empty
when the connection itself failed), used to express "no execution was
attempted". -/
def execute_sql_query (env : DbEnv) (sql : Str) (nat : Option Str) :
    EngineResponse × List Str :=
  match env.connect with
  | .error e =>
      ({ success := false
         error := some (S "Database error: " ++ e)
         sql_query := some sql, natural_query := nat, data := none }, [])
  | .ok _ =>
      match env.runQuery sql with
      | .error e =>
          ({ success := false
             error := some (S "Database error: " ++ e)
             sql_query := some sql, natural_query := nat, data := none }, [sql])
      | .ok results =>
          ({ success := true
             data := some (.rows results)
             sql_query := some sql, natural_query := nat
             row_count := some results.length }, [sql])

/-- Model of `OpenAISQLEngine.execute_natural_query` (`query_engine.py:151-185`). -/
def execute_natural_query (eng : Engine) (net : Except Str HttpOutcome)
    (env : DbEnv) (q : Str) : EngineResponse × List Str :=
  if eng.use_ai = false then
    ({ success := false
       error := some (S "AI functionality not available. Use execute_sql_query() for direct SQL.")
       data := none }, [])
  else
    match generate_sql eng net with
    | .error e =>
        ({ success := false
           error := some (S "Error processing natural language query: " ++ e)
           data := none, natural_query := some q }, [])
    | .ok sql => execute_sql_query env sql (some q)

/-- Model of `OpenAISQLEngine.get_table_preview` (`query_engine.py:219-222`). -/
def get_table_preview (env : DbEnv) (table : Str) (limit : Nat) :
    EngineResponse × List Str :=
  execute_sql_query env (S "SELECT * FROM " ++ table ++ S " LIMIT " ++ natStr limit) none

/-- Model of `OpenAISQLEngine.list_tables` (`query_engine.py:224-239`): fresh
`get_table_info()` on every call; `data` is `list(tables.keys())`. -/
def list_tables (env : DbEnv) : EngineResponse :=
  match env.connect with
  | .error e =>
      { success := false, error := some (S "Error listing tables: " ++ e), data := none }
  | .ok _ =>
      match env.getTableInfo with
      | .error e =>
          { success := false, error := some (S "Error listing tables: " ++ e), data := none }
      | .ok tables =>
          { success := true
            data := some (.names (tables.map Prod.fst))
            table_info := some tables }

/-- Model of `columns = list(display_data[0].keys())` (`query_engine.py:257`). -/
def columnsOf (display : List Row) : List Str := (display.headD []).map Prod.fst

/-- Model of `col_widths[col]` (`query_engine.py:260-262`): the maximum of the
header length and the longest stringified value of that column over the
displayed rows. -/
def colWidth (display : List Row) (col : Str) : Nat :=
  Nat.max col.length (listMax (display.map fun row => (pyStr (rowGet row col)).length))

/-- Header line of the table (`query_engine.py:268`). -/
def headerLine (display : List Row) : Str :=
  joinSep (S " | ") ((columnsOf display).map fun col => ljust col (colWidth display col))

/-- One data-row line (`query_engine.py:274`). -/
def rowLine (display : List Row) (row : Row) : Str :=
  joinSep (S " | ")
    ((columnsOf display).map fun col => ljust (pyStr (rowGet row col)) (colWidth display col))

/-- Table body and summary (`query_engine.py:264-286`). -/
def formatTableBody (data display : List Row) (max_rows : Nat) : Str :=
  joinSep (S "\n")
    (headerLine display ::
      List.replicate (headerLine display).length '-' ::
      display.map (rowLine display)) ++
  (if data.length > max_rows then
    S "\n\n... showing " ++ natStr max_rows ++ S " of " ++ natStr data.length ++ S " rows"
  else S "\n\nTotal rows: " ++ natStr data.length)

/-- Model of `OpenAISQLEngine.format_results` (`query_engine.py:241-286`).  `none`
models the `AttributeError` raised when `display_data[0].keys()` is
evaluated on a list of plain strings (a `list_tables` payload). -/
def format_results (results : EngineResponse) (max_rows : Nat) : Option Str :=
  if results.success = false then
    some (S "❌ Error: " ++ results.error.getD (S "Unknown error"))
  else
    match results.data with
    | none => some (S "No results found.")
    | some (.names l) =>
        if l.isEmpty then some (S "No results found.")
        else
          let display := if l.length > max_rows then l.take max_rows else l
          if display.isEmpty then some (S "No results to display.") else none
    | some (.rows data) =>
        if data.isEmpty then some (S "No results found.")
        else
          let display := if data.length > max_rows then data.take max_rows else data
          if display.isEmpty then some (S "No results to display.")
          else some (formatTableBody data display max_rows)

/-- A healthy database environment whose `execute_query` behaves as
`LocalDatabaseManager.execute_query` over cursor state `cur`. -/
def envOf (cur : Cursor) : DbEnv :=
  { connect := .ok ()
    runQuery := fun q => .ok (LocalDatabaseManager.execute_query cur q).result
    getTableInfo := .ok [] }

lemma lstrip_cons_of_not_ws {c : Char} {l : Str} (h : c.isWhitespace = false) :
    lstrip (c :: l) = c :: l := by
  simp [lstrip, List.dropWhile_cons, h]

lemma lstrip_cons_of_ws {c : Char} {l : Str} (h : c.isWhitespace = true) :
    lstrip (c :: l) = lstrip l := by
  simp [lstrip, List.dropWhile_cons, h]

lemma lstrip_append_of_ws {w l : Str} (h : ∀ c ∈ w, c.isWhitespace = true) :
    lstrip (w ++ l) = lstrip l := by
  induction w with
  | nil => rfl
  | cons a t ih =>
      rw [List.cons_append, lstrip_cons_of_ws (h a (by simp))]
      exact ih fun c hc => h c (by simp [hc])

lemma rstrip_append_of_ws {l w : Str} (h : ∀ c ∈ w, c.isWhitespace = true) :
    rstrip (l ++ w) = rstrip l := by
  unfold rstrip
  rw [List.reverse_append, lstrip_append_of_ws fun c hc => h c (List.mem_reverse.mp hc)]

lemma rstrip_snoc_of_not_ws {l : Str} {c : Char} (h : c.isWhitespace = false) :
    rstrip (l ++ [c]) = l ++ [c] := by
  unfold rstrip
  rw [List.reverse_append]
  simp only [List.reverse_cons, List.reverse_nil, List.nil_append, List.singleton_append]
  rw [lstrip_cons_of_not_ws h]
  simp

lemma strip_snoc_of_ws {l : Str} {c : Char} (h : c.isWhitespace = true) :
    rstrip (lstrip (l ++ [c])) = rstrip (lstrip l) := by
  by_cases hE : lstrip l = []
  · have hall : ∀ x ∈ l ++ [c], Char.isWhitespace x = true := by
      intro x hx
      rcases List.mem_append.mp hx with hx | hx
      · exact List.dropWhile_eq_nil_iff.mp hE x hx
      · simp only [List.mem_singleton] at hx; simpa [hx] using h
    have : lstrip (l ++ [c]) = [] := List.dropWhile_eq_nil_iff.mpr hall
    rw [this, hE]
  · have : lstrip (l ++ [c]) = lstrip l ++ [c] := by
      unfold lstrip
      rw [List.dropWhile_append]
      simp only [List.isEmpty_iff]
      rw [if_neg (by simpa [lstrip] using hE)]
    rw [this, rstrip_append_of_ws (by intro x hx; simp only [List.mem_singleton] at hx; simpa [hx] using h)]

lemma strip_append_ws {l w : Str} (h : ∀ c ∈ w, c.isWhitespace = true) :
    rstrip (lstrip (l ++ w)) = rstrip (lstrip l) := by
  by_cases hE : lstrip l = []
  · have hall : ∀ x ∈ l ++ w, Char.isWhitespace x = true := by
      intro x hx
      rcases List.mem_append.mp hx with hx | hx
      · exact List.dropWhile_eq_nil_iff.mp hE x hx
      · exact h x hx
    rw [hE]
    unfold lstrip
    rw [List.dropWhile_eq_nil_iff.mpr hall]
  · have : lstrip (l ++ w) = lstrip l ++ w := by
      unfold lstrip
      rw [List.dropWhile_append]
      simp only [List.isEmpty_iff]
      rw [if_neg (by simpa [lstrip] using hE)]
    rw [this, rstrip_append_of_ws h]

lemma pyStrip_of_not_ws_ends {c d : Char} {l : Str}
    (hc : c.isWhitespace = false) (hd : d.isWhitespace = false) :
    pyStrip (c :: (l ++ [d])) = c :: (l ++ [d]) := by
  unfold pyStrip
  rw [lstrip_cons_of_not_ws hc]
  have : c :: (l ++ [d]) = (c :: l) ++ [d] := by simp
  rw [this, rstrip_snoc_of_not_ws hd]

lemma pyStrip_wrap {w1 m w2 : Str} (h1 : ∀ c ∈ w1, c.isWhitespace = true)
    (h2 : ∀ c ∈ w2, c.isWhitespace = true) (hm : pyStrip m = m) :
    pyStrip (w1 ++ m ++ w2) = m := by
  have : pyStrip (w1 ++ m ++ w2) = rstrip (lstrip (m ++ w2)) := by
    unfold pyStrip
    rw [List.append_assoc, lstrip_append_of_ws h1]
  rw [this, strip_append_ws h2]
  exact hm

/-- C3: every generation-client response consisting of a ```sql fenced code
block (optionally surrounded by whitespace) is reduced by the mandatory
post-processing of `query_engine.py:132-142` to exactly the inner SQL text
with the fence markers removed and no leading or trailing whitespace. -/
theorem c3_fence_strip (w1 w2 inner : Str)
    (h1 : ∀ c ∈ w1, c.isWhitespace = true) (h2 : ∀ c ∈ w2, c.isWhitespace = true) :
    cleanSql (w1 ++ (S "```sql\n" ++ inner ++ S "\n```") ++ w2) = pyStrip inner := by
  have hm : pyStrip (S "```sql\n" ++ inner ++ S "\n```") = S "```sql\n" ++ inner ++ S "\n```" := by
    have e : S "```sql\n" ++ inner ++ S "\n```"
        = '`' :: ((S "``sql\n" ++ inner ++ S "\n``") ++ ['`']) := by
      simp [S, List.append_assoc]
    rw [e]
    exact pyStrip_of_not_ws_ends (by decide) (by decide)
  have c1 : pyStartsWith (S "```sql\n" ++ inner ++ S "\n```") (S "```sql") = true := rfl
  have e6 : (S "```sql\n" ++ inner ++ S "\n```").drop 6 = '\n' :: (inner ++ S "\n```") := by
    have e : S "```sql\n" ++ inner ++ S "\n```"
        = '`' :: '`' :: '`' :: 's' :: 'q' :: 'l' :: '\n' :: (inner ++ S "\n```") := by
      simp [S, List.append_assoc]
    rw [e]
    rfl
  have c2 : pyStartsWith ('\n' :: (inner ++ S "\n```")) (S "```") = false := rfl
  have c3e : pyEndsWith ('\n' :: (inner ++ S "\n```")) (S "```") = true := by
    simp [pyEndsWith, List.isPrefixOf, S, List.reverse_append]
  have es : '\n' :: (inner ++ S "\n```") = ('\n' :: (inner ++ [ '\n'])) ++ ['`', '`', '`'] := by
    simp [S, List.append_assoc]
  simp only [cleanSql]
  rw [pyStrip_wrap h1 h2 hm]
  have hX2 : (if pyStartsWith (S "```sql\n" ++ inner ++ S "\n```") (S "```sql") = true
      then (S "```sql\n" ++ inner ++ S "\n```").drop 6
      else (S "```sql\n" ++ inner ++ S "\n```")) = '\n' :: (inner ++ S "\n```") := by
    rw [if_pos c1, e6]
  rw [hX2]
  have hX3 : (if pyStartsWith ('\n' :: (inner ++ S "\n```")) (S "```") = true
      then ('\n' :: (inner ++ S "\n```")).drop 3
      else ('\n' :: (inner ++ S "\n```"))) = '\n' :: (inner ++ S "\n```") := by
    rw [if_neg (by simp [c2])]
  rw [hX3]
  have hX4 : (if pyEndsWith ('\n' :: (inner ++ S "\n```")) (S "```") = true
      then ('\n' :: (inner ++ S "\n```")).take (('\n' :: (inner ++ S "\n```")).length - 3)
      else ('\n' :: (inner ++ S "\n```"))) = '\n' :: (inner ++ ['\n']) := by
    rw [if_pos c3e]
    rw [es]
    have hlen : (('\n' :: (inner ++ ['\n'])) ++ ['`', '`', '`']).length - 3
        = ('\n' :: (inner ++ ['\n'])).length := by
      simp [List.length_append]
    rw [hlen, List.take_left]
  rw [hX4]
  show pyStrip ('\n' :: (inner ++ ['\n'])) = pyStrip inner
  unfold pyStrip
  rw [lstrip_cons_of_ws (by decide)]
  exact strip_append_ws (by intro c hc; simp only [List.mem_singleton] at hc; simp [hc])

/-- Witness for C3 at a concrete fenced response. -/
theorem c3_fence_strip_witness :
    cleanSql (S "  " ++ (S "```sql\n" ++ S "SELECT 1" ++ S "\n```") ++ S "\n")
      = pyStrip (S "SELECT 1") :=
  c3_fence_strip (S "  ") (S "\n") (S "SELECT 1") (by decide) (by decide)

/-- C2 counterexample: `"EXPLAIN SELECT 1"` starts with `EXPLAIN` after
trimming and upcasing, so the claim requires a Rows-shaped result from
every executor; but `DatabaseManager.execute_query` (`database.py:59`)
tests only `SELECT`/`SHOW`/`DESCRIBE`, commits, and returns the
affected-rows shape. -/
theorem c2_explain_counterexample :
    isRead4 (S "EXPLAIN SELECT 1") = true ∧
    DatabaseManager.execute_query ⟨[], [], 7⟩ (S "EXPLAIN SELECT 1")
      = (.affectedRes 7, true) := by decide

/-- C2 (amended): both executors classify a statement by its leading
keyword case-insensitively after trimming whitespace;
`LocalDatabaseManager` treats `SELECT`, `SHOW`, `DESCRIBE`, `EXPLAIN` as
reads (fetching rows, no commit) while `DatabaseManager` treats only
`SELECT`, `SHOW`, `DESCRIBE` as reads; every other statement commits
immediately and returns the driver's affected-row count. -/
theorem c2_keyword_classification (q : Str) (cur : Cursor) (curG : CursorG) :
    (isRead4 q = true →
      LocalDatabaseManager.execute_query cur q = ⟨cur.fetched, false⟩) ∧
    (isRead4 q = false →
      LocalDatabaseManager.execute_query cur q
        = ⟨[[(S "affected_rows", PyVal.vInt cur.rowcount)]], true⟩) ∧
    (isRead3 q = true →
      DatabaseManager.execute_query curG q = (.rowsRes curG.description curG.fetched, false)) ∧
    (isRead3 q = false →
      DatabaseManager.execute_query curG q = (.affectedRes curG.rowcount, true)) := by
  refine ⟨?_, ?_, ?_, ?_⟩ <;> intro h <;>
    simp [LocalDatabaseManager.execute_query, DatabaseManager.execute_query, h]

/-- Witness for C2 (amended): a lowercase `select` is fetched as rows by
the local executor, and a `DELETE` is committed with the driver's count
by the other executor. -/
theorem c2_keyword_classification_witness :
    LocalDatabaseManager.execute_query ⟨[[(S "x", PyVal.vInt 1)]], 3⟩ (S "  select 1")
      = ⟨[[(S "x", PyVal.vInt 1)]], false⟩ ∧
    DatabaseManager.execute_query ⟨[], [S "c"], 3⟩ (S "DELETE FROM t")
      = (.affectedRes 3, true) :=
  ⟨(c2_keyword_classification (S "  select 1") ⟨[[(S "x", PyVal.vInt 1)]], 3⟩
      ⟨[], [S "c"], 3⟩).1 (by decide),
   (c2_keyword_classification (S "DELETE FROM t") ⟨[[(S "x", PyVal.vInt 1)]], 3⟩
      ⟨[], [S "c"], 3⟩).2.2.2 (by decide)⟩

def failImpliesErr (r : EngineResponse) : Prop :=
  r.success = false → r.data = none ∧ r.error.isSome = true

/-- C1: every public engine operation (`execute_natural_query`,
`execute_sql_query`, `get_table_preview`, `list_tables`) returns a
response envelope under every database/network/generation outcome, and
whenever that envelope has `success = false` its `data` field is absent
and its `error` field is present. -/
theorem c1_envelope (env : DbEnv) (eng : Engine) (net : Except Str HttpOutcome)
    (sql q tbl : Str) (nat : Option Str) (limit : Nat) :
    failImpliesErr (execute_sql_query env sql nat).1 ∧
    failImpliesErr (execute_natural_query eng net env q).1 ∧
    failImpliesErr (get_table_preview env tbl limit).1 ∧
    failImpliesErr (list_tables env) := by
  have hsql : ∀ (s : Str) (n : Option Str), failImpliesErr (execute_sql_query env s n).1 := by
    intro s n
    unfold failImpliesErr execute_sql_query
    cases env.connect with
    | error e => simp
    | ok u =>
        cases env.runQuery s with
        | error e => simp
        | ok res => simp
  refine ⟨hsql sql nat, ?_, hsql _ none, ?_⟩
  · unfold execute_natural_query
    by_cases hai : eng.use_ai = false
    · simp [hai, failImpliesErr]
    · simp only [hai, if_false]
      cases generate_sql eng net with
      | error e => simp [failImpliesErr]
      | ok s => exact hsql s (some q)
  · unfold failImpliesErr list_tables
    cases env.connect with
    | error e => simp
    | ok u =>
        cases env.getTableInfo with
        | error e => simp
        | ok t => simp

/-- Witness for C1 at a failing connection: the response of
`execute_sql_query` carries no data and a present error. -/
theorem c1_envelope_witness :
    (execute_sql_query
        ⟨.error (S "connection refused"), fun _ => .error (S "boom"), .error (S "boom")⟩
        (S "SELECT 1") none).1.data = none ∧
    (execute_sql_query
        ⟨.error (S "connection refused"), fun _ => .error (S "boom"), .error (S "boom")⟩
        (S "SELECT 1") none).1.error.isSome = true :=
  (c1_envelope
    ⟨.error (S "connection refused"), fun _ => .error (S "boom"), .error (S "boom")⟩
    ⟨false, none, S ""⟩ (.error (S "net")) (S "SELECT 1") (S "q") (S "t") none 5).1 rfl

/-- C8: whenever SQL generation is unavailable (AI disabled, or no API
key) or the generation client fails (network error, non-200 HTTP status,
or a response body missing the completion field), `execute_natural_query`
returns `success = false` with the upstream error preserved in the
message — in particular "OpenAI API error" for a non-200 status — and no
SQL statement is handed to the database. -/
theorem c8_generation_failure (eng : Engine) (env : DbEnv) (net : Except Str HttpOutcome)
    (q e k : Str) (resp : HttpOutcome) :
    (eng.use_ai = false →
      (execute_natural_query eng net env q).1.success = false ∧
      ((execute_natural_query eng net env q).1.error).isSome = true ∧
      (execute_natural_query eng net env q).2 = []) ∧
    (eng.use_ai = true → eng.api_key = none →
      (execute_natural_query eng net env q).1.success = false ∧
      containsSub (S "OpenAI API key not available")
        (((execute_natural_query eng net env q).1.error).getD []) ∧
      (execute_natural_query eng net env q).2 = []) ∧
    (eng.use_ai = true → eng.api_key.isSome = true → net = .error e →
      (execute_natural_query eng net env q).1.success = false ∧
      containsSub (S "Network error calling OpenAI API")
        (((execute_natural_query eng net env q).1.error).getD []) ∧
      containsSub e (((execute_natural_query eng net env q).1.error).getD []) ∧
      (execute_natural_query eng net env q).2 = []) ∧
    (eng.use_ai = true → eng.api_key.isSome = true → net = .ok resp → resp.status ≠ 200 →
      (execute_natural_query eng net env q).1.success = false ∧
      containsSub (S "OpenAI API error")
        (((execute_natural_query eng net env q).1.error).getD []) ∧
      (execute_natural_query eng net env q).2 = []) ∧
    (eng.use_ai = true → eng.api_key.isSome = true → net = .ok resp → resp.status = 200 →
      resp.content = .error k →
      (execute_natural_query eng net env q).1.success = false ∧
      containsSub (S "Unexpected OpenAI API response format")
        (((execute_natural_query eng net env q).1.error).getD []) ∧
      containsSub k (((execute_natural_query eng net env q).1.error).getD []) ∧
      (execute_natural_query eng net env q).2 = []) := by
  have hfail : ∀ (m : Str), eng.use_ai = true → generate_sql eng net = .error m →
      (execute_natural_query eng net env q).1
        = { success := false,
            error := some (S "Error processing natural language query: " ++ m),
            data := none, natural_query := some q } ∧
      (execute_natural_query eng net env q).2 = [] := by
    intro m hai hgen
    unfold execute_natural_query
    rw [hai, hgen]
    simp
  refine ⟨?_, ?_, ?_, ?_, ?_⟩
  · intro hai
    unfold execute_natural_query
    rw [hai]
    exact ⟨rfl, rfl, rfl⟩
  · intro hai hk
    have hgen : generate_sql eng net = .error (S "OpenAI API key not available") := by
      unfold generate_sql
      rw [hk]
    obtain ⟨he, hex⟩ := hfail _ hai hgen
    rw [he, hex]
    refine ⟨rfl, ?_, rfl⟩
    exact ⟨S "Error processing natural language query: ", [], by simp [List.append_assoc]⟩
  · intro hai hkey hnet
    obtain ⟨key, hk⟩ := Option.isSome_iff_exists.mp hkey
    have hgen : generate_sql eng net
        = .error (S "Network error calling OpenAI API: " ++ e) := by
      unfold generate_sql
      rw [hk, hnet]
    obtain ⟨he, hex⟩ := hfail _ hai hgen
    rw [he, hex]
    refine ⟨rfl, ?_, ?_, rfl⟩
    · exact ⟨S "Error processing natural language query: ", S ": " ++ e,
        by simp [S, List.append_assoc]⟩
    · exact ⟨S "Error processing natural language query: " ++
          S "Network error calling OpenAI API: ", [],
        by simp [List.append_assoc]⟩
  · intro hai hkey hnet hst
    obtain ⟨key, hk⟩ := Option.isSome_iff_exists.mp hkey
    have hgen : generate_sql eng net
        = .error (S "Error generating SQL with OpenAI: " ++
            (S "OpenAI API error: " ++ natStr resp.status ++ S " - " ++ resp.text)) := by
      unfold generate_sql
      rw [hk, hnet]
      simp [hst]
    obtain ⟨he, hex⟩ := hfail _ hai hgen
    rw [he, hex]
    refine ⟨rfl, ?_, rfl⟩
    exact ⟨S "Error processing natural language query: " ++
        S "Error generating SQL with OpenAI: ",
      S ": " ++ natStr resp.status ++ S " - " ++ resp.text,
      by simp [S, List.append_assoc]⟩
  · intro hai hkey hnet hst hcont
    obtain ⟨key, hk⟩ := Option.isSome_iff_exists.mp hkey
    have hgen : generate_sql eng net
        = .error (S "Unexpected OpenAI API response format: " ++ k) := by
      unfold generate_sql
      rw [hk, hnet]
      simp [hst, hcont]
    obtain ⟨he, hex⟩ := hfail _ hai hgen
    rw [he, hex]
    refine ⟨rfl, ?_, ?_, rfl⟩
    · exact ⟨S "Error processing natural language query: ", S ": " ++ k,
        by simp [S, List.append_assoc]⟩
    · exact ⟨S "Error processing natural language query: " ++
          S "Unexpected OpenAI API response format: ", [],
        by simp [List.append_assoc]⟩

/-- Witness for C8 across all five generation-failure modes: AI disabled,
missing key, network failure, a 500 response, and a 200 response missing
the completion field. -/
theorem c8_generation_failure_witness :
    ((execute_natural_query ⟨false, none, S ""⟩ (.error (S "x")) (envOf ⟨[], 0⟩)
        (S "q")).1.success = false ∧
      ((execute_natural_query ⟨false, none, S ""⟩ (.error (S "x")) (envOf ⟨[], 0⟩)
        (S "q")).1.error).isSome = true ∧
      (execute_natural_query ⟨false, none, S ""⟩ (.error (S "x")) (envOf ⟨[], 0⟩)
        (S "q")).2 = []) ∧
    ((execute_natural_query ⟨true, none, S ""⟩ (.error (S "x")) (envOf ⟨[], 0⟩)
        (S "q")).1.success = false ∧
      containsSub (S "OpenAI API key not available")
        (((execute_natural_query ⟨true, none, S ""⟩ (.error (S "x")) (envOf ⟨[], 0⟩)
          (S "q")).1.error).getD []) ∧
      (execute_natural_query ⟨true, none, S ""⟩ (.error (S "x")) (envOf ⟨[], 0⟩)
        (S "q")).2 = []) ∧
    ((execute_natural_query ⟨true, some (S "k"), S "ctx"⟩ (.error (S "timeout"))
        (envOf ⟨[], 0⟩) (S "q")).1.success = false ∧
      containsSub (S "Network error calling OpenAI API")
        (((execute_natural_query ⟨true, some (S "k"), S "ctx"⟩ (.error (S "timeout"))
          (envOf ⟨[], 0⟩) (S "q")).1.error).getD []) ∧
      containsSub (S "timeout")
        (((execute_natural_query ⟨true, some (S "k"), S "ctx"⟩ (.error (S "timeout"))
          (envOf ⟨[], 0⟩) (S "q")).1.error).getD []) ∧
      (execute_natural_query ⟨true, some (S "k"), S "ctx"⟩ (.error (S "timeout"))
        (envOf ⟨[], 0⟩) (S "q")).2 = []) ∧
    ((execute_natural_query ⟨true, some (S "k"), S "ctx"⟩
        (.ok ⟨500, S "oops", .ok (S "x")⟩) (envOf ⟨[], 0⟩) (S "q")).1.success = false ∧
      containsSub (S "OpenAI API error")
        (((execute_natural_query ⟨true, some (S "k"), S "ctx"⟩
          (.ok ⟨500, S "oops", .ok (S "x")⟩) (envOf ⟨[], 0⟩) (S "q")).1.error).getD []) ∧
      (execute_natural_query ⟨true, some (S "k"), S "ctx"⟩
        (.ok ⟨500, S "oops", .ok (S "x")⟩) (envOf ⟨[], 0⟩) (S "q")).2 = []) ∧
    ((execute_natural_query ⟨true, some (S "k"), S "ctx"⟩
        (.ok ⟨200, S "body", .error (S "choices")⟩) (envOf ⟨[], 0⟩) (S "q")).1.success = false ∧
      containsSub (S "Unexpected OpenAI API response format")
        (((execute_natural_query ⟨true, some (S "k"), S "ctx"⟩
          (.ok ⟨200, S "body", .error (S "choices")⟩) (envOf ⟨[], 0⟩) (S "q")).1.error).getD []) ∧
      containsSub (S "choices")
        (((execute_natural_query ⟨true, some (S "k"), S "ctx"⟩
          (.ok ⟨200, S "body", .error (S "choices")⟩) (envOf ⟨[], 0⟩) (S "q")).1.error).getD []) ∧
      (execute_natural_query ⟨true, some (S "k"), S "ctx"⟩
        (.ok ⟨200, S "body", .error (S "choices")⟩) (envOf ⟨[], 0⟩) (S "q")).2 = []) :=
  ⟨(c8_generation_failure ⟨false, none, S ""⟩ (envOf ⟨[], 0⟩) (.error (S "x"))
      (S "q") (S "") (S "") ⟨0, S "", .ok (S "")⟩).1 rfl,
   (c8_generation_failure ⟨true, none, S ""⟩ (envOf ⟨[], 0⟩) (.error (S "x"))
      (S "q") (S "") (S "") ⟨0, S "", .ok (S "")⟩).2.1 rfl rfl,
   (c8_generation_failure ⟨true, some (S "k"), S "ctx"⟩ (envOf ⟨[], 0⟩)
      (.error (S "timeout")) (S "q") (S "timeout") (S "")
      ⟨0, S "", .ok (S "")⟩).2.2.1 rfl rfl rfl,
   (c8_generation_failure ⟨true, some (S "k"), S "ctx"⟩ (envOf ⟨[], 0⟩)
      (.ok ⟨500, S "oops", .ok (S "x")⟩) (S "q") (S "") (S "")
      ⟨500, S "oops", .ok (S "x")⟩).2.2.2.1 rfl rfl rfl (by decide),
   (c8_generation_failure ⟨true, some (S "k"), S "ctx"⟩ (envOf ⟨[], 0⟩)
      (.ok ⟨200, S "body", .error (S "choices")⟩) (S "q") (S "") (S "choices")
      ⟨200, S "body", .error (S "choices")⟩).2.2.2.2 rfl rfl rfl rfl rfl⟩

lemma containsSub_trans {a b c : Str} (h1 : containsSub a b) (h2 : containsSub b c) :
    containsSub a c := by
  obtain ⟨p1, s1, e1⟩ := h1
  obtain ⟨p2, s2, e2⟩ := h2
  exact ⟨p2 ++ p1, s1 ++ s2, by rw [e2, e1]; simp [List.append_assoc]⟩

lemma containsSub_append_left {a b : Str} (p : Str) (h : containsSub a b) :
    containsSub a (p ++ b) := by
  obtain ⟨q, s, e⟩ := h
  exact ⟨p ++ q, s, by rw [e]; simp [List.append_assoc]⟩

lemma containsSub_of_mem_joinSep {x : Str} {sep : Str} {l : List Str} (h : x ∈ l) :
    containsSub x (joinSep sep l) := by
  induction l with
  | nil => cases h
  | cons b t ih =>
      cases t with
      | nil =>
          simp only [List.mem_singleton] at h
          exact ⟨[], [], by simp [h, joinSep]⟩
      | cons c t' =>
          rcases List.mem_cons.mp h with h | h
          · exact ⟨[], sep ++ joinSep sep (c :: t'), by simp [h, joinSep, List.append_assoc]⟩
          · obtain ⟨p, s, e⟩ := ih h
            exact ⟨b ++ sep ++ p, s, by simp [joinSep, e, List.append_assoc]⟩

/-- C9: for every schema with at least one table, the schema context
string of `query_engine.py:54-64` contains each table's literal name and
every one of its column names, and consists of the header plus one
`tableLine` per table; on an empty schema it yields the non-empty
header line rather than an empty string. -/
theorem c9_schema_context (tables : TableInfo) (t : Str × List ColInfo) (ht : t ∈ tables) :
    containsSub t.1 (build_schema_context (.ok tables)) ∧
    (∀ c ∈ t.2, containsSub c.name (build_schema_context (.ok tables))) ∧
    build_schema_context (.ok tables)
      = S "Available tables and columns:\n" ++ joinSep (S "\n") (tables.map tableLine) ∧
    build_schema_context (.ok []) ≠ S "" ∧
    build_schema_context (.ok []) = S "Available tables and columns:\n" := by
  have hline : containsSub (tableLine t) (build_schema_context (.ok tables)) := by
    unfold build_schema_context
    exact containsSub_append_left _ (containsSub_of_mem_joinSep (List.mem_map_of_mem _ ht))
  refine ⟨?_, ?_, rfl, by decide, by decide⟩
  · refine containsSub_trans ?_ hline
    exact ⟨S "Table ", S ": " ++ joinSep (S ", ") (t.2.map colEntry),
      by simp [tableLine, List.append_assoc]⟩
  · intro c hc
    refine containsSub_trans ?_ hline
    have hce : containsSub (colEntry c) (joinSep (S ", ") (t.2.map colEntry)) :=
      containsSub_of_mem_joinSep (List.mem_map_of_mem _ hc)
    refine containsSub_trans
      (show containsSub c.name (colEntry c) from
        ⟨[], S " (" ++ c.type ++ S ")", by simp [colEntry, List.append_assoc]⟩) ?_
    have : tableLine t = (S "Table " ++ t.1 ++ S ": ") ++ joinSep (S ", ") (t.2.map colEntry) := by
      simp [tableLine, List.append_assoc]
    rw [this]
    exact containsSub_append_left _ hce

/-- Witness for C9 on a one-table schema with two columns. -/
theorem c9_schema_context_witness :
    containsSub (S "USERS")
      (build_schema_context (.ok [(S "USERS",
        [⟨S "ID", S "int", S "NO", S "PRI", none, S ""⟩,
         ⟨S "COUNTRY", S "varchar", S "YES", S "", none, S ""⟩])])) ∧
    containsSub (S "ID")
      (build_schema_context (.ok [(S "USERS",
        [⟨S "ID", S "int", S "NO", S "PRI", none, S ""⟩,
         ⟨S "COUNTRY", S "varchar", S "YES", S "", none, S ""⟩])])) ∧
    containsSub (S "COUNTRY")
      (build_schema_context (.ok [(S "USERS",
        [⟨S "ID", S "int", S "NO", S "PRI", none, S ""⟩,
         ⟨S "COUNTRY", S "varchar", S "YES", S "", none, S ""⟩])])) ∧
    build_schema_context (.ok []) ≠ S "" :=
  ⟨(c9_schema_context
      [(S "USERS",
        [⟨S "ID", S "int", S "NO", S "PRI", none, S ""⟩,
         ⟨S "COUNTRY", S "varchar", S "YES", S "", none, S ""⟩])]
      (S "USERS",
        [⟨S "ID", S "int", S "NO", S "PRI", none, S ""⟩,
         ⟨S "COUNTRY", S "varchar", S "YES", S "", none, S ""⟩])
      (by decide)).1,
   (c9_schema_context
      [(S "USERS",
        [⟨S "ID", S "int", S "NO", S "PRI", none, S ""⟩,
         ⟨S "COUNTRY", S "varchar", S "YES", S "", none, S ""⟩])]
      (S "USERS",
        [⟨S "ID", S "int", S "NO", S "PRI", none, S ""⟩,
         ⟨S "COUNTRY", S "varchar", S "YES", S "", none, S ""⟩])
      (by decide)).2.1 ⟨S "ID", S "int", S "NO", S "PRI", none, S ""⟩ (by decide),
   (c9_schema_context
      [(S "USERS",
        [⟨S "ID", S "int", S "NO", S "PRI", none, S ""⟩,
         ⟨S "COUNTRY", S "varchar", S "YES", S "", none, S ""⟩])]
      (S "USERS",
        [⟨S "ID", S "int", S "NO", S "PRI", none, S ""⟩,
         ⟨S "COUNTRY", S "varchar", S "YES", S "", none, S ""⟩])
      (by decide)).2.1 ⟨S "COUNTRY", S "varchar", S "YES", S "", none, S ""⟩ (by decide),
   (c9_schema_context
      [(S "USERS",
        [⟨S "ID", S "int", S "NO", S "PRI", none, S ""⟩,
         ⟨S "COUNTRY", S "varchar", S "YES", S "", none, S ""⟩])]
      (S "USERS",
        [⟨S "ID", S "int", S "NO", S "PRI", none, S ""⟩,
         ⟨S "COUNTRY", S "varchar", S "YES", S "", none, S ""⟩])
      (by decide)).2.2.2.1⟩

/-- C6 counterexample: an engine whose schema introspection failed keeps
`use_ai` enabled, so with a working key, endpoint, and database a
natural-language query succeeds end to end instead of failing fast. -/
theorem c6_no_fail_fast_counterexample :
    (mkEngine (some (S "k")) true (.error (S "Connection refused"))).schema_context
      = S "Error loading schema: Connection refused" ∧
    (execute_natural_query (mkEngine (some (S "k")) true (.error (S "Connection refused")))
        (.ok ⟨200, S "", .ok (S "SELECT 1")⟩)
        (envOf ⟨[[(S "one", PyVal.vInt 1)]], 0⟩) (S "anything")).1.success = true := by
  decide

/-- C6 (amended): when introspection fails at construction the schema
context is set to the `Error loading schema:` placeholder and direct SQL
and table operations still function, but natural-language queries are
not blocked: generation still runs (with the placeholder embedded in the
prompt context) and any generated SQL is executed. -/
theorem c6_degraded (e key q sqlText : Str) (env : DbEnv) (resp : HttpOutcome)
    (info : TableInfo) :
    (mkEngine (some key) true (.error e)).schema_context = S "Error loading schema: " ++ e ∧
    (∀ (sql : Str) (nat : Option Str) (rows : List Row),
      env.connect = .ok () → env.runQuery sql = .ok rows →
      (execute_sql_query env sql nat).1.success = true) ∧
    (env.connect = .ok () → env.getTableInfo = .ok info →
      (list_tables env).success = true) ∧
    (resp.status = 200 → resp.content = .ok sqlText →
      execute_natural_query (mkEngine (some key) true (.error e)) (.ok resp) env q
        = execute_sql_query env (cleanSql sqlText) (some q)) := by
  refine ⟨rfl, ?_, ?_, ?_⟩
  · intro sql nat rows hc hr
    unfold execute_sql_query
    rw [hc, hr]
  · intro hc hi
    unfold list_tables
    rw [hc, hi]
  · intro hs hc
    unfold execute_natural_query
    have hai : (mkEngine (some key) true (.error e)).use_ai = true := rfl
    rw [hai]
    simp only [if_neg (by simp : ¬(true = false))]
    have hgen : generate_sql (mkEngine (some key) true (.error e)) (.ok resp)
        = .ok (cleanSql sqlText) := by
      unfold generate_sql
      have : (mkEngine (some key) true (.error e)).api_key = some key := rfl
      rw [this]
      simp [hs, hc]
    rw [hgen]

/-- Witness for C6 (amended): concrete degraded engine, healthy database
and endpoint. -/
theorem c6_degraded_witness :
    (mkEngine (some (S "k")) true (.error (S "down"))).schema_context
      = S "Error loading schema: " ++ S "down" ∧
    (execute_sql_query (envOf ⟨[], 2⟩) (S "SELECT 1") none).1.success = true ∧
    (list_tables (envOf ⟨[], 2⟩)).success = true ∧
    execute_natural_query (mkEngine (some (S "k")) true (.error (S "down")))
        (.ok ⟨200, S "", .ok (S "DELETE FROM t")⟩) (envOf ⟨[], 2⟩) (S "q")
      = execute_sql_query (envOf ⟨[], 2⟩) (cleanSql (S "DELETE FROM t")) (some (S "q")) :=
  ⟨(c6_degraded (S "down") (S "k") (S "q") (S "DELETE FROM t") (envOf ⟨[], 2⟩)
      ⟨200, S "", .ok (S "DELETE FROM t")⟩ []).1,
   (c6_degraded (S "down") (S "k") (S "q") (S "DELETE FROM t") (envOf ⟨[], 2⟩)
      ⟨200, S "", .ok (S "DELETE FROM t")⟩ []).2.1 (S "SELECT 1") none [] rfl rfl,
   (c6_degraded (S "down") (S "k") (S "q") (S "DELETE FROM t") (envOf ⟨[], 2⟩)
      ⟨200, S "", .ok (S "DELETE FROM t")⟩ []).2.2.1 rfl rfl,
   (c6_degraded (S "down") (S "k") (S "q") (S "DELETE FROM t") (envOf ⟨[], 2⟩)
      ⟨200, S "", .ok (S "DELETE FROM t")⟩ []).2.2.2 rfl rfl⟩

/-- C7 counterexample: the engine caches only the context string, not a
TableSchema; after the database schema changes from table `A` (cached at
construction) to table `B`, `list_tables` returns `B` — the current
introspection — and not the cached name set `A`, so it does not return
the cached TableSchema. -/
theorem c7_not_cached_counterexample :
    (mkEngine (some (S "k")) true (.ok [(S "A", [])])).schema_context
      = S "Available tables and columns:\nTable A: " ∧
    (list_tables ⟨.ok (), fun _ => .ok [], .ok [(S "B", [])]⟩).data
      = some (.names [S "B"]) ∧
    some (PyData.names [S "B"]) ≠ some (PyData.names [S "A"]) := by decide

/-- C7 (amended): `list_tables` re-introspects the live database on every
call; any two calls that observe the same schema — in particular two
successive calls with no intervening schema change — return identical
responses, whose `data` is the table-name list and whose `table_info` is
the name-to-columns mapping. -/
theorem c7_list_tables (env1 env2 : DbEnv) (info : TableInfo)
    (h1c : env1.connect = .ok ()) (h1i : env1.getTableInfo = .ok info)
    (h2c : env2.connect = .ok ()) (h2i : env2.getTableInfo = .ok info) :
    list_tables env1 = list_tables env2 ∧
    (list_tables env1).data = some (.names (info.map Prod.fst)) ∧
    (list_tables env1).table_info = some info := by
  unfold list_tables
  rw [h1c, h1i, h2c, h2i]
  exact ⟨rfl, rfl, rfl⟩

/-- Witness for C7 (amended) on a concrete one-table schema. -/
theorem c7_list_tables_witness :
    list_tables ⟨.ok (), fun _ => .ok [], .ok [(S "A", [])]⟩
      = list_tables ⟨.ok (), fun _ => .ok [], .ok [(S "A", [])]⟩ ∧
    (list_tables ⟨.ok (), fun _ => .ok [], .ok [(S "A", [])]⟩).data
      = some (.names ([(S "A", ([] : List ColInfo))].map Prod.fst)) ∧
    (list_tables ⟨.ok (), fun _ => .ok [], .ok [(S "A", [])]⟩).table_info
      = some [(S "A", [])] :=
  c7_list_tables ⟨.ok (), fun _ => .ok [], .ok [(S "A", [])]⟩
    ⟨.ok (), fun _ => .ok [], .ok [(S "A", [])]⟩ [(S "A", [])] rfl rfl rfl rfl

/-- C5 counterexample: executing a DELETE whose driver row count is 1
and formatting the envelope yields a multi-line table (header
`affected_rows`, separator, the count, and a `Total rows: 1` summary) —
not a single confirmation line such as `Affected rows: 1`. -/
theorem c5_affected_counterexample :
    (format_results
        (execute_sql_query (envOf ⟨[], 1⟩) (S "DELETE FROM USERS WHERE ID=1") none).1 20)
      = some (S "affected_rows\n-------------\n1            \n\nTotal rows: 1") ∧
    '\n' ∈ S "affected_rows\n-------------\n1            \n\nTotal rows: 1" ∧
    S "affected_rows\n-------------\n1            \n\nTotal rows: 1" ≠ S "Affected rows: 1" := by
  decide

/-- C5 (amended): for every successful write statement the executor
returns `[{"affected_rows": n}]` and `format_results` renders it as a
one-column table — the `affected_rows` header padded to the column
width, a dash rule of the same width, the stringified count, and a
`Total rows: 1` summary — rather than a dedicated confirmation line. -/
theorem c5_affected_table (cur : Cursor) (q : Str) (hq : isRead4 q = false) :
    format_results (execute_sql_query (envOf cur) q none).1 20
      = some (ljust (S "affected_rows") (Nat.max 13 (intStr cur.rowcount).length) ++ S "\n" ++
          (List.replicate (ljust (S "affected_rows")
              (Nat.max 13 (intStr cur.rowcount).length)).length '-' ++ S "\n" ++
            ljust (intStr cur.rowcount) (Nat.max 13 (intStr cur.rowcount).length)) ++
          S "\n\nTotal rows: 1") := by
  have hrun : (envOf cur).runQuery q = .ok [[(S "affected_rows", PyVal.vInt cur.rowcount)]] := by
    simp [envOf, LocalDatabaseManager.execute_query, hq]
  have henv : (execute_sql_query (envOf cur) q none).1
      = { success := true,
          data := some (.rows [[(S "affected_rows", PyVal.vInt cur.rowcount)]]),
          sql_query := some q, natural_query := none, row_count := some 1 } := by
    unfold execute_sql_query
    rw [show (envOf cur).connect = .ok () from rfl, hrun]
    rfl
  rw [henv]
  simp only [format_results]
  simp [formatTableBody, headerLine, rowLine, columnsOf, colWidth, listMax, rowGet,
    joinSep, List.lookup, pyStr, List.append_assoc]
  rw [show List.length (S "affected_rows") = 13 from by decide,
    show S "\n\nTotal rows: " ++ natStr 1 = S "\n\nTotal rows: 1" from by decide]

/-- Witness for C5 (amended) at a DELETE with driver row count 1. -/
theorem c5_affected_table_witness :
    format_results (execute_sql_query (envOf ⟨[], 1⟩) (S "DELETE FROM USERS WHERE ID=1") none).1 20
      = some (ljust (S "affected_rows") (Nat.max 13 (intStr 1).length) ++ S "\n" ++
          (List.replicate (ljust (S "affected_rows") (Nat.max 13 (intStr 1).length)).length '-'
            ++ S "\n" ++ ljust (intStr 1) (Nat.max 13 (intStr 1).length)) ++
          S "\n\nTotal rows: 1") :=
  c5_affected_table ⟨[], 1⟩ (S "DELETE FROM USERS WHERE ID=1") (by decide)

/-- C4: formatting a successful 25-row result with `max_rows = 20`
produces the header, the separator rule, exactly the first 20 data-row
lines, and a summary stating that 20 of 25 rows are shown; each column's
alignment width is the maximum of the header length and the longest
stringified value of that column across the displayed rows. -/
theorem c4_truncation (r : Row) (rest : List Row) (h : (r :: rest).length = 25) :
    format_results { success := true, data := some (.rows (r :: rest)) } 20
      = some (joinSep (S "\n")
          (headerLine ((r :: rest).take 20)
            :: List.replicate (headerLine ((r :: rest).take 20)).length '-'
            :: ((r :: rest).take 20).map (rowLine ((r :: rest).take 20)))
          ++ (S "\n\n... showing " ++ natStr 20 ++ S " of " ++ natStr 25 ++ S " rows")) ∧
    (((r :: rest).take 20).map (rowLine ((r :: rest).take 20))).length = 20 ∧
    (∀ col : Str, colWidth ((r :: rest).take 20) col
      = Nat.max col.length (listMax (((r :: rest).take 20).map
          fun row => (pyStr (rowGet row col)).length))) := by
  refine ⟨?_, ?_, fun col => rfl⟩
  · simp [format_results, formatTableBody, h]
  · have h24 : rest.length = 24 := by simpa using h
    simp [List.length_take, h24]

/-- Concrete 25-row data set for the C4 witness. -/
def c4Rows : List Row := [(S "id", PyVal.vInt 0)] :: List.replicate 24 [(S "id", PyVal.vInt 0)]

/-- Witness for C4 on 25 identical one-column rows. -/
theorem c4_truncation_witness :
    format_results { success := true, data := some (.rows c4Rows) } 20
      = some (joinSep (S "\n")
          (headerLine (c4Rows.take 20)
            :: List.replicate (headerLine (c4Rows.take 20)).length '-'
            :: (c4Rows.take 20).map (rowLine (c4Rows.take 20)))
          ++ (S "\n\n... showing " ++ natStr 20 ++ S " of " ++ natStr 25 ++ S " rows")) ∧
    ((c4Rows.take 20).map (rowLine (c4Rows.take 20))).length = 20 ∧
    colWidth (c4Rows.take 20) (S "id")
      = Nat.max (S "id").length (listMax ((c4Rows.take 20).map
          fun row => (pyStr (rowGet row (S "id"))).length)) :=
  ⟨(c4_truncation [(S "id", PyVal.vInt 0)] (List.replicate 24 [(S "id", PyVal.vInt 0)])
      (by decide)).1,
   (c4_truncation [(S "id", PyVal.vInt 0)] (List.replicate 24 [(S "id", PyVal.vInt 0)])
      (by decide)).2.1,
   (c4_truncation [(S "id", PyVal.vInt 0)] (List.replicate 24 [(S "id", PyVal.vInt 0)])
      (by decide)).2.2 (S "id")⟩

/-- C10: `format_results` derives the displayed column set from the keys
of the first data row, renders the empty string for a displayed row that
lacks one of those keys, and therefore always produces a string (never
fails) on a successful non-empty rows result, even with heterogeneous
key sets. -/
theorem c10_first_row_columns (r : Row) (rest : List Row) (m : Nat) (hm : 0 < m) :
    (format_results { success := true, data := some (.rows (r :: rest)) } m).isSome = true ∧
    columnsOf (if (r :: rest).length > m then (r :: rest).take m else r :: rest)
      = r.map Prod.fst ∧
    (∀ (row : Row) (k : Str), row.lookup k = none → pyStr (rowGet row k) = S "") := by
  obtain ⟨n, rfl⟩ : ∃ n, m = n + 1 := ⟨m - 1, by omega⟩
  refine ⟨?_, ?_, ?_⟩
  · by_cases hgt : (r :: rest).length > n + 1 <;>
      simp [format_results, hgt, List.take_succ_cons] <;> split <;> simp
  · by_cases hgt : (r :: rest).length > n + 1 <;>
      simp [columnsOf, hgt, List.take_succ_cons] <;> split <;> simp
  · intro row k hk
    simp [rowGet, hk, pyStr]
    rfl

/-- Witness for C10 on two rows with disjoint key sets. -/
theorem c10_first_row_columns_witness :
    (format_results
        { success := true,
          data := some (.rows [[(S "a", PyVal.vInt 1)], [(S "b", PyVal.vStr (S "x"))]]) }
        20).isSome = true ∧
    columnsOf (if ([[(S "a", PyVal.vInt 1)], [(S "b", PyVal.vStr (S "x"))]] : List Row).length > 20
        then ([[(S "a", PyVal.vInt 1)], [(S "b", PyVal.vStr (S "x"))]] : List Row).take 20
        else [[(S "a", PyVal.vInt 1)], [(S "b", PyVal.vStr (S "x"))]])
      = ([(S "a", PyVal.vInt 1)] : Row).map Prod.fst ∧
    pyStr (rowGet [(S "b", PyVal.vStr (S "x"))] (S "a")) = S "" :=
  ⟨(c10_first_row_columns [(S "a", PyVal.vInt 1)] [[(S "b", PyVal.vStr (S "x"))]] 20 (by decide)).1,
   (c10_first_row_columns [(S "a", PyVal.vInt 1)] [[(S "b", PyVal.vStr (S "x"))]] 20 (by decide)).2.1,
   (c10_first_row_columns [(S "a", PyVal.vInt 1)] [[(S "b", PyVal.vStr (S "x"))]] 20 (by decide)).2.2
     [(S "b", PyVal.vStr (S "x"))] (S "a") (by decide)⟩
